import Mathlib

/-!
Verification of the ResearchAI repository (src/research_ai/researcher.py,
src/research_ai/main.py, src/research_ai/config.py) against its design spec.

Modelling conventions:
* Python ints are modelled as `Nat` (all token counts in the source are
  non-negative API usage numbers); Python float arithmetic on costs is
  modelled by exact rationals `ℚ`.
* The mutable `ResearchAI` dataclass instance is modelled as an explicit
  state record threaded through each method.
* A Python method that can raise is modelled as returning
  `Except (PyError × ResearchAI) α`: the error case carries the exception
  together with the state at the moment the exception was raised (Python
  object mutations performed before the raise persist).
* The price table `COSTS` is imported in the source from `modelsinfo`,
  a module that is not part of this repository; following the spec
  (section 3, PriceTable) it is modelled as an immutable mapping from a
  model identifier to per-1000-token prompt/completion prices, and the
  theorems quantify over it.
* Logging / `print` calls have no effect on the modelled state and are
  omitted; `define_question` (interactive console input) is not needed by
  any claim and is not modelled.
-/

/-- A row of the price table: prompt and completion price per 1000 tokens
(spec section 3, PriceTable). -/
structure Price where
  prompt : ℚ
  completion : ℚ
deriving DecidableEq

/-- Modelled from the spec: the `COSTS` table imported from `modelsinfo`
(absent from this repository) is an immutable mapping from a model
identifier to its prices; lookup of an absent identifier has no entry
(in Python, `COSTS[model]` then raises `KeyError`). -/
def PriceTable : Type := String → Option Price

/-- Python exceptions that the modelled code can raise.
`KeyError` is raised by the `COSTS[model]` dict lookup in `update_cost`;
`JSONDecodeError` is raised by `json.loads` in `get_proposed_research_json`. -/
inductive PyError where
  | KeyError (key : String)
  | JSONDecodeError (msg : String)
deriving DecidableEq

/-- The `ResearchAI` dataclass state (researcher.py lines 31-58).
`question`, `sub_questions` and `context` default to Python `None`,
hence `Option`.  `debug` mirrors `cfg.DEBUG`; it only gates logging and
has no effect on any modelled transition. -/
structure ResearchAI where
  question : Option String
  sub_questions : Option (List String)
  context : Option (List String)
  sub_questions_answered : Bool
  main_question_answered : Bool
  turn : Nat
  model : String
  temperature : ℚ
  max_tokens : Nat
  total_prompt_tokens : Nat
  total_completion_tokens : Nat
  total_cost : ℚ
  total_budget : ℚ
  debug : Bool
deriving DecidableEq

/-- The field defaults of the `ResearchAI` dataclass: the state of a
freshly constructed `ResearchAI()`. -/
def initialResearchAI : ResearchAI where
  question := none
  sub_questions := none
  context := none
  sub_questions_answered := false
  main_question_answered := false
  turn := 0
  model := "gpt-3.5-turbo"
  temperature := 0
  max_tokens := 500
  total_prompt_tokens := 0
  total_completion_tokens := 0
  total_cost := 0
  total_budget := 0
  debug := false

/-- `ResearchAI.reset` (researcher.py lines 60-67): clears the two
completion flags, the turn counter and the four ledger fields. -/
def ResearchAI.reset (s : ResearchAI) : ResearchAI :=
  { s with
    main_question_answered := false
    sub_questions_answered := false
    turn := 0
    total_prompt_tokens := 0
    total_completion_tokens := 0
    total_cost := 0
    total_budget := 0 }

/-- `ResearchAI.update_cost` (researcher.py lines 199-215).  The source
mutates `total_prompt_tokens` (line 208) and `total_completion_tokens`
(line 209) before evaluating `COSTS[model]` (line 211); on an unknown
model the dict lookup raises `KeyError` with the token totals already
incremented, which the error case records. -/
def ResearchAI.update_cost (t : PriceTable) (s : ResearchAI)
    (prompt_tokens completion_tokens : Nat) (model : String) :
    Except (PyError × ResearchAI) ResearchAI :=
  let s1 := { s with total_prompt_tokens := s.total_prompt_tokens + prompt_tokens }
  let s2 := { s1 with total_completion_tokens := s1.total_completion_tokens + completion_tokens }
  match t model with
  | none => Except.error (PyError.KeyError model, s2)
  | some price =>
      Except.ok { s2 with total_cost := s2.total_cost +
        ((prompt_tokens : ℚ) * price.prompt + (completion_tokens : ℚ) * price.completion) / 1000 }

/-- `ResearchAI.set_total_budget` (researcher.py lines 217-224). -/
def ResearchAI.set_total_budget (s : ResearchAI) (total_budget : ℚ) : ResearchAI :=
  { s with total_budget := total_budget }

/-- `ResearchAI.get_total_prompt_tokens` (researcher.py lines 226-233). -/
def ResearchAI.get_total_prompt_tokens (s : ResearchAI) : Nat :=
  s.total_prompt_tokens

/-- `ResearchAI.get_total_completion_tokens` (researcher.py lines 235-242). -/
def ResearchAI.get_total_completion_tokens (s : ResearchAI) : Nat :=
  s.total_completion_tokens

/-- `ResearchAI.get_total_cost` (researcher.py lines 244-251). -/
def ResearchAI.get_total_cost (s : ResearchAI) : ℚ :=
  s.total_cost

/-- `ResearchAI.get_total_budget` (researcher.py lines 253-260). -/
def ResearchAI.get_total_budget (s : ResearchAI) : ℚ :=
  s.total_budget

/-- Modelled from the spec: `budget_exceeded() -> bool`: true iff
`total_budget > 0 AND total_cost > total_budget`.  No such method exists
anywhere in the source; nothing in the source consults the budget. -/
def ResearchAI.budget_exceeded (s : ResearchAI) : Bool :=
  decide (0 < s.total_budget) && decide (s.total_budget < s.total_cost)

/-- One cost-recording call: (prompt_tokens, completion_tokens, model). -/
abbrev CostCall := Nat × Nat × String

/-- The per-call cost delta computed from the price table, the formula of
researcher.py lines 210-213. -/
def callDelta (t : PriceTable) (x : CostCall) : ℚ :=
  match t x.2.2 with
  | some price => ((x.1 : ℚ) * price.prompt + (x.2.1 : ℚ) * price.completion) / 1000
  | none => 0

/-- A finite sequence of `update_cost` calls applied in order; an exception
aborts the sequence (as uncaught Python exceptions would). -/
def run_calls (t : PriceTable) : ResearchAI → List CostCall →
    Except (PyError × ResearchAI) ResearchAI
  | s, [] => Except.ok s
  | s, x :: rest =>
    match ResearchAI.update_cost t s x.1 x.2.1 x.2.2 with
    | Except.ok s' => run_calls t s' rest
    | Except.error e => Except.error e

/-- Projection helpers for stating concrete facts about `Except` results. -/
def okState : Except (PyError × ResearchAI) ResearchAI → Option ResearchAI
  | Except.ok s => some s
  | Except.error _ => none

/-- The state carried by the error case (the Python state at the moment the
exception was raised). -/
def errState : Except (PyError × ResearchAI) ResearchAI → Option ResearchAI
  | Except.error (_, s) => some s
  | Except.ok _ => none

/-- The exception carried by the error case. -/
def errException : Except (PyError × ResearchAI) ResearchAI → Option PyError
  | Except.error (e, _) => some e
  | Except.ok _ => none

/-! ### Helper lemmas about `update_cost` -/

/-- `update_cost` on a model present in the table returns normally and
performs exactly the three field updates of lines 208-213. -/
lemma update_cost_of_lookup_some (t : PriceTable) (s : ResearchAI) (p c : Nat)
    (m : String) (price : Price) (h : t m = some price) :
    ResearchAI.update_cost t s p c m = Except.ok { s with
      total_prompt_tokens := s.total_prompt_tokens + p
      total_completion_tokens := s.total_completion_tokens + c
      total_cost := s.total_cost +
        ((p : ℚ) * price.prompt + (c : ℚ) * price.completion) / 1000 } := by
  unfold ResearchAI.update_cost
  rw [h]

/-- `update_cost` on a model absent from the table raises `KeyError` with
the token totals already incremented and `total_cost` untouched. -/
lemma update_cost_of_lookup_none (t : PriceTable) (s : ResearchAI) (p c : Nat)
    (m : String) (h : t m = none) :
    ResearchAI.update_cost t s p c m = Except.error (PyError.KeyError m,
      { s with
        total_prompt_tokens := s.total_prompt_tokens + p
        total_completion_tokens := s.total_completion_tokens + c }) := by
  unfold ResearchAI.update_cost
  rw [h]

/-- Linearity of `run_calls`: when every call's model is priced, the whole
sequence returns normally and the final `total_cost` is the initial cost
plus the sum of the per-call deltas. -/
lemma run_calls_cost (t : PriceTable) :
    ∀ (l : List CostCall) (s : ResearchAI), (∀ x ∈ l, (t x.2.2).isSome = true) →
      ∃ s1, run_calls t s l = Except.ok s1 ∧
        s1.total_cost = s.total_cost + (l.map (callDelta t)).sum := by
  intro l
  induction l with
  | nil =>
    intro s _
    exact ⟨s, rfl, by simp⟩
  | cons x rest ih =>
    intro s hv
    have hm : (t x.2.2).isSome = true := hv x (by simp)
    obtain ⟨price, hprice⟩ := Option.isSome_iff_exists.mp hm
    obtain ⟨s1, h1, hc1⟩ := ih
      { s with
        total_prompt_tokens := s.total_prompt_tokens + x.1
        total_completion_tokens := s.total_completion_tokens + x.2.1
        total_cost := s.total_cost +
          ((x.1 : ℚ) * price.prompt + (x.2.1 : ℚ) * price.completion) / 1000 }
      (fun y hy => hv y (List.mem_cons_of_mem x hy))
    refine ⟨s1, ?_, ?_⟩
    · unfold run_calls
      rw [update_cost_of_lookup_some t s x.1 x.2.1 x.2.2 price hprice]
      exact h1
    · rw [hc1]
      simp only [List.map_cons, List.sum_cons, callDelta, hprice]
      ring

/-! ### Claim theorems: cost ledger -/

/-- Claim C1: for every `update_cost` call whose model is present in the
price table, `total_cost` increases by exactly
`(prompt_tokens * price.prompt + completion_tokens * price.completion) / 1000`,
`total_prompt_tokens` by `prompt_tokens`, and `total_completion_tokens` by
`completion_tokens` (and no other field changes). -/
theorem update_cost_known_model_exact_delta (t : PriceTable) (s : ResearchAI)
    (p c : Nat) (m : String) (price : Price) (h : t m = some price) :
    ResearchAI.update_cost t s p c m = Except.ok { s with
      total_prompt_tokens := s.total_prompt_tokens + p
      total_completion_tokens := s.total_completion_tokens + c
      total_cost := s.total_cost +
        ((p : ℚ) * price.prompt + (c : ℚ) * price.completion) / 1000 } :=
  update_cost_of_lookup_some t s p c m price h

/-- A concrete price table used for witnesses: prices the default model
`gpt-3.5-turbo` at 0.002 per 1000 tokens for both prompt and completion. -/
def samplePriceTable : PriceTable :=
  fun m => if m = "gpt-3.5-turbo" then some ⟨1/500, 1/500⟩ else none

/-- The sample price row for `gpt-3.5-turbo`. -/
def samplePrice : Price := ⟨1/500, 1/500⟩

/-- Witness for C1: the theorem applied at a concrete priced call. -/
theorem update_cost_known_model_exact_delta_witness :
    samplePriceTable "gpt-3.5-turbo" = some samplePrice ∧
    ResearchAI.update_cost samplePriceTable initialResearchAI 10 5 "gpt-3.5-turbo" =
      Except.ok { initialResearchAI with
        total_prompt_tokens := initialResearchAI.total_prompt_tokens + 10
        total_completion_tokens := initialResearchAI.total_completion_tokens + 5
        total_cost := initialResearchAI.total_cost +
          ((10 : ℚ) * samplePrice.prompt + (5 : ℚ) * samplePrice.completion) / 1000 } :=
  ⟨rfl, update_cost_known_model_exact_delta samplePriceTable initialResearchAI
    10 5 "gpt-3.5-turbo" samplePrice rfl⟩

/-- Claim C5 (confirmed): starting from a freshly reset ledger, any finite
sequence of priced `update_cost` calls succeeds, the final `total_cost`
equals the sum of the per-call deltas computed from the price table, and
any permutation of the same calls yields the identical final `total_cost`. -/
theorem run_calls_sum_and_permutation_invariant (t : PriceTable) (s : ResearchAI)
    (l l' : List CostCall) (hperm : l.Perm l')
    (hv : ∀ x ∈ l, (t x.2.2).isSome = true) :
    ∃ s1 s2, run_calls t (ResearchAI.reset s) l = Except.ok s1 ∧
      run_calls t (ResearchAI.reset s) l' = Except.ok s2 ∧
      s1.total_cost = (l.map (callDelta t)).sum ∧
      s2.total_cost = s1.total_cost := by
  have hv' : ∀ x ∈ l', (t x.2.2).isSome = true := fun x hx =>
    hv x (hperm.mem_iff.mpr hx)
  obtain ⟨s1, h1, hc1⟩ := run_calls_cost t l (ResearchAI.reset s) hv
  obtain ⟨s2, h2, hc2⟩ := run_calls_cost t l' (ResearchAI.reset s) hv'
  have hz : (ResearchAI.reset s).total_cost = 0 := rfl
  refine ⟨s1, s2, h1, h2, ?_, ?_⟩
  · rw [hc1, hz, zero_add]
  · rw [hc2, hc1, hz, zero_add, zero_add]
    exact (hperm.map (callDelta t)).sum_eq.symm

/-- Witness for C5: two concrete calls and their transposition. -/
theorem run_calls_sum_and_permutation_invariant_witness :
    ([((10 : Nat), (5 : Nat), "gpt-3.5-turbo"), (3, 4, "gpt-3.5-turbo")].Perm
      [(3, 4, "gpt-3.5-turbo"), ((10 : Nat), (5 : Nat), "gpt-3.5-turbo")]) ∧
    (∀ x ∈ [((10 : Nat), (5 : Nat), "gpt-3.5-turbo"), (3, 4, "gpt-3.5-turbo")],
      (samplePriceTable x.2.2).isSome = true) ∧
    (∃ s1 s2, run_calls samplePriceTable (ResearchAI.reset initialResearchAI)
        [((10 : Nat), (5 : Nat), "gpt-3.5-turbo"), (3, 4, "gpt-3.5-turbo")] = Except.ok s1 ∧
      run_calls samplePriceTable (ResearchAI.reset initialResearchAI)
        [(3, 4, "gpt-3.5-turbo"), ((10 : Nat), (5 : Nat), "gpt-3.5-turbo")] = Except.ok s2 ∧
      s1.total_cost = ([((10 : Nat), (5 : Nat), "gpt-3.5-turbo"), (3, 4, "gpt-3.5-turbo")].map
        (callDelta samplePriceTable)).sum ∧
      s2.total_cost = s1.total_cost) :=
  ⟨by decide, by decide,
    run_calls_sum_and_permutation_invariant samplePriceTable initialResearchAI
      [((10 : Nat), (5 : Nat), "gpt-3.5-turbo"), (3, 4, "gpt-3.5-turbo")]
      [(3, 4, "gpt-3.5-turbo"), ((10 : Nat), (5 : Nat), "gpt-3.5-turbo")]
      (by decide) (by decide)⟩

/-- A price table with no entries at all, used to exercise the unknown-model
path. -/
def emptyPriceTable : PriceTable := fun _ => none

/-- Counterexample to claim C6 as stated: calling `update_cost` with a model
absent from the price table does raise, but the failing call leaves the
ledger's token totals CHANGED: from the fresh state, a failing call with
`prompt_tokens = 5`, `completion_tokens = 7` leaves
`total_prompt_tokens = 5` and `total_completion_tokens = 7` (the source
increments them on lines 208-209 before the `COSTS[model]` lookup on
line 211 raises `KeyError`). -/
theorem update_cost_unknown_model_mutates_tokens :
    errException (ResearchAI.update_cost emptyPriceTable initialResearchAI 5 7 "no-such-model") =
      some (PyError.KeyError "no-such-model") ∧
    (errState (ResearchAI.update_cost emptyPriceTable initialResearchAI 5 7 "no-such-model")).map
      (fun s => s.total_prompt_tokens) = some 5 ∧
    (errState (ResearchAI.update_cost emptyPriceTable initialResearchAI 5 7 "no-such-model")).map
      (fun s => s.total_completion_tokens) = some 7 ∧
    initialResearchAI.total_prompt_tokens = 0 ∧
    initialResearchAI.total_completion_tokens = 0 := by
  refine ⟨rfl, rfl, rfl, rfl, rfl⟩

/-- Claim C6 (corrected): for every `update_cost` call with a model absent
from the price table, the operation fails with an error (`KeyError`, the
dict lookup failure) rather than silently recording zero cost, and
`total_cost` is unchanged on the failing call; however the token totals
`total_prompt_tokens` and `total_completion_tokens` have already been
incremented by the call's amounts before the failure. -/
theorem update_cost_unknown_model_raises (t : PriceTable) (s : ResearchAI)
    (p c : Nat) (m : String) (h : t m = none) :
    ResearchAI.update_cost t s p c m = Except.error (PyError.KeyError m,
      { s with
        total_prompt_tokens := s.total_prompt_tokens + p
        total_completion_tokens := s.total_completion_tokens + c }) :=
  update_cost_of_lookup_none t s p c m h

/-- Witness for C6's amended theorem at a concrete unknown model. -/
theorem update_cost_unknown_model_raises_witness :
    emptyPriceTable "gpt-4" = none ∧
    ResearchAI.update_cost emptyPriceTable initialResearchAI 8 9 "gpt-4" =
      Except.error (PyError.KeyError "gpt-4",
        { initialResearchAI with
          total_prompt_tokens := initialResearchAI.total_prompt_tokens + 8
          total_completion_tokens := initialResearchAI.total_completion_tokens + 9 }) :=
  ⟨rfl, update_cost_unknown_model_raises emptyPriceTable initialResearchAI 8 9 "gpt-4" rfl⟩

/-- Claim C9 (confirmed): immediately after `reset()` the four ledger fields
are exactly zero, and every ledger query returns zero. -/
theorem reset_gives_zero_ledger (s : ResearchAI) :
    (ResearchAI.reset s).total_prompt_tokens = 0 ∧
    (ResearchAI.reset s).total_completion_tokens = 0 ∧
    (ResearchAI.reset s).total_cost = 0 ∧
    (ResearchAI.reset s).total_budget = 0 ∧
    ResearchAI.get_total_prompt_tokens (ResearchAI.reset s) = 0 ∧
    ResearchAI.get_total_completion_tokens (ResearchAI.reset s) = 0 ∧
    ResearchAI.get_total_cost (ResearchAI.reset s) = 0 ∧
    ResearchAI.get_total_budget (ResearchAI.reset s) = 0 :=
  ⟨rfl, rfl, rfl, rfl, rfl, rfl, rfl, rfl⟩

/-- Claim C10 (confirmed): `reset()` touches only the two completion flags,
the turn counter and the four ledger fields; `question`, `sub_questions`
and `context` (and every other field: `model`, `temperature`, `max_tokens`,
`debug`) are left unchanged for every session state. -/
theorem reset_preserves_question_subquestions_context (s : ResearchAI) :
    (ResearchAI.reset s).question = s.question ∧
    (ResearchAI.reset s).sub_questions = s.sub_questions ∧
    (ResearchAI.reset s).context = s.context ∧
    (ResearchAI.reset s).model = s.model ∧
    (ResearchAI.reset s).temperature = s.temperature ∧
    (ResearchAI.reset s).max_tokens = s.max_tokens ∧
    (ResearchAI.reset s).debug = s.debug :=
  ⟨rfl, rfl, rfl, rfl, rfl, rfl, rfl⟩

/-! ### The turn-prompt builder (`generate_first_prompt`, researcher.py 101-124) -/

/-- Python `str()` of an `Optional[str]` as interpolated by an f-string:
`None` renders as the text `None`, a string renders as itself. -/
def pyStrOptStr : Option String → String
  | none => "None"
  | some s => s

/-- Python `repr()` of a string as it appears inside `str(list)`: the string
between single quotes.  (CPython additionally escapes quotes, backslashes
and control characters; the strings relevant here contain none, and no
claim depends on that corner.) -/
def pyReprStr (s : String) : String :=
  "\x27" ++ s ++ "\x27"

/-- Python `str()` of a `list[str]`: bracketed, comma-separated reprs. -/
def pyReprStrList (xs : List String) : String :=
  "[" ++ String.intercalate ", " (xs.map pyReprStr) ++ "]"

/-- Python `str()` of an `Optional[list[str]]` under f-string interpolation. -/
def pyStrOptStrList : Option (List String) → String
  | none => "None"
  | some xs => pyReprStrList xs

/-- `ResearchAI.generate_first_prompt` (researcher.py lines 101-124),
transcribed line by line.  Only lines 104 and 106 of the source are
f-strings; the line building step 9/10 (source line 117) is a plain string,
so its `\x7bturn\x7d` is emitted literally and the `turn` field is never
interpolated.  The method reads `question`, `sub_questions` and `context`
and performs no assignment, which the pure function type records. -/
def ResearchAI.generate_first_prompt (s : ResearchAI) : String :=
  let content := "You are a researcher, and you are trying to answer the following research question: " ++ pyStrOptStr s.question ++ ". "
  let content := content ++ "You should NOT use your own knowledge to answer the question, but instead use the information contained in these messages ONLY. "
  let content := content ++ "Your current sub-questions related to this are: " ++ pyStrOptStrList s.sub_questions ++ ". You have found the following information: " ++ pyStrOptStrList s.context ++ ". "
  let content := content ++ "Your research takes place in turns, in the following format: "
  let content := content ++ "1. Receive this message outlining the question and context. "
  let content := content ++ "2. Define sub-questions relevant to the research question. "
  let content := content ++ "3. Decide if you need to search the internet for context to aid you in crafting the academic database query in the next step, "
  let content := content ++ "and if so create a search query. You will consider all information you find on the internet to be unusable to your research."
  let content := content ++ "4. Create a search query for a database of academic papers. "
  let content := content ++ "5. Read the results of your internet search and academic paper query, and summarize your findings. "
  let content := content ++ "6. Attempt to answer your sub-questions, if you have gathered enough information. "
  let content := content ++ "7. Decide if the answer to your research question is clear, and if so, answer it. "
  let content := content ++ "8. If you are not sure if you have answered the research question, go back to step 2. "
  let content := content ++ "9. If you have answered the research question, summarize your findings. 10. End the research session. You are currently in turn \x7bturn\x7d. "
  let content := content ++ "You will define your actions this turn in two phases, in the form of two valid JSON strings. You are currently in the first phase"
  let content := content ++ "The first phase is to define your sub-questions, decide if you need to search the internet, create your candidate search queries, "
  let content := content ++ "and read the results of your search queries. You will give your answer to this in this format: "
  let content := content ++ "\x7b\"sub_questions\": [list of strings], \"internet_search\": boolean, \"internet_query\": string, \"academic_query\": string\x7d. "
  let content := content ++ "You will then receive the results of your internet search and academic paper query, and proceed to the second phase. "
  content

/-- Whether `needle` occurs at the head of `hay`. -/
def beginsWith : List Char → List Char → Bool
  | [], _ => true
  | _ :: _, [] => false
  | a :: as, b :: bs => a = b && beginsWith as bs

/-- Whether `needle` occurs contiguously anywhere in `hay`. -/
def containsSeq (needle : List Char) : List Char → Bool
  | [] => needle.isEmpty
  | c :: cs => beginsWith needle (c :: cs) || containsSeq needle cs

/-- Claim C7 (confirmed): the turn-prompt builder is deterministic: any two
session states agreeing on `question`, `sub_questions`, `context` and
`turn` produce byte-identical prompt strings.  The builder is a pure
function of the state (the source method performs no assignment), so
repeated calls on equal state trivially agree and the session is left
unchanged. -/
theorem generate_first_prompt_deterministic (s1 s2 : ResearchAI)
    (hq : s1.question = s2.question)
    (hs : s1.sub_questions = s2.sub_questions)
    (hc : s1.context = s2.context)
    (_ht : s1.turn = s2.turn) :
    ResearchAI.generate_first_prompt s1 = ResearchAI.generate_first_prompt s2 := by
  unfold ResearchAI.generate_first_prompt
  rw [hq, hs, hc]

/-- Witness for C7: two states equal on the four fields but differing in
`total_cost` and `model` yield the identical prompt. -/
theorem generate_first_prompt_deterministic_witness :
    initialResearchAI.question = ({ initialResearchAI with total_cost := 7, model := "gpt-4" } : ResearchAI).question ∧
    initialResearchAI.sub_questions = ({ initialResearchAI with total_cost := 7, model := "gpt-4" } : ResearchAI).sub_questions ∧
    initialResearchAI.context = ({ initialResearchAI with total_cost := 7, model := "gpt-4" } : ResearchAI).context ∧
    initialResearchAI.turn = ({ initialResearchAI with total_cost := 7, model := "gpt-4" } : ResearchAI).turn ∧
    ResearchAI.generate_first_prompt initialResearchAI =
      ResearchAI.generate_first_prompt { initialResearchAI with total_cost := 7, model := "gpt-4" } :=
  ⟨rfl, rfl, rfl, rfl,
    generate_first_prompt_deterministic initialResearchAI
      { initialResearchAI with total_cost := 7, model := "gpt-4" } rfl rfl rfl rfl⟩

set_option maxRecDepth 100000 in
/-- Claim C8 evaluated at the failing input: two sessions differing only in
`turn` (0 versus 1) receive byte-identical prompts, and the prompt contains
the literal placeholder text `\x7bturn\x7d`: source line 117 is not an
f-string (unlike lines 104 and 106), so the turn number is never rendered. -/
theorem prompt_identical_across_turns :
    ResearchAI.generate_first_prompt initialResearchAI =
      ResearchAI.generate_first_prompt { initialResearchAI with turn := 1 } ∧
    containsSeq (String.data "\x7bturn\x7d")
      (String.data (ResearchAI.generate_first_prompt initialResearchAI)) = true := by
  exact ⟨rfl, by decide⟩

/-! ### JSON decoding (`json.loads`, used at researcher.py line 145)

The Python standard library's strict JSON decoder is modelled by an
executable recursive-descent parser over the character list.  `json.loads`
raises only `json.JSONDecodeError` (a `ValueError`); here a decode failure
is an `Except.error msg` and the caller wraps it as
`PyError.JSONDecodeError`.  Corner cases with no bearing on any claim are
simplified: the non-standard `NaN`/`Infinity` literals and surrogate-pair
`\uXXXX` recombination are not modelled, numbers are exact rationals
rather than floats, and nesting deeper than the fuel bound (which mirrors
CPython's recursion limit) is a decode error. -/

/-- A decoded JSON value. -/
inductive JsonValue where
  | null
  | bool (b : Bool)
  | num (q : ℚ)
  | str (s : String)
  | arr (elems : List JsonValue)
  | obj (members : List (String × JsonValue))

/-- The opening brace character, written via its code point. -/
def lbrace : Char := Char.ofNat 123

/-- The closing brace character, written via its code point. -/
def rbrace : Char := Char.ofNat 125

/-- Skip JSON whitespace (space, tab, newline, carriage return). -/
def skipWs : List Char → List Char
  | [] => []
  | c :: cs =>
    if c = ' ' || c = '\t' || c = '\n' || c = Char.ofNat 13 then skipWs cs
    else c :: cs

/-- Numeric value of a decimal digit character. -/
def digitVal (c : Char) : Nat := c.toNat - 48

/-- The natural number denoted by a list of decimal digits. -/
def digitsToNat (ds : List Char) : Nat :=
  ds.foldl (fun acc c => acc * 10 + digitVal c) 0

/-- Parse the tail of an exponent part (after `e`/`E`); if no digits follow,
the exponent part does not match and the original input is restored,
mirroring the optional exponent group of the JSON number grammar. -/
def parseExpTail (r : List Char) (orig : List Char) : Int × List Char :=
  let sr : Int × List Char :=
    match r with
    | '+' :: rr => (1, rr)
    | '-' :: rr => (-1, rr)
    | _ => (1, r)
  let ed := sr.2.takeWhile Char.isDigit
  if ed.isEmpty then (0, orig)
  else (sr.1 * (digitsToNat ed : Int), sr.2.drop ed.length)

/-- Parse an optional exponent part. -/
def parseExpPart (cs : List Char) : Int × List Char :=
  match cs with
  | 'e' :: r => parseExpTail r cs
  | 'E' :: r => parseExpTail r cs
  | _ => (0, cs)

/-- Parse a JSON number following the grammar
`-?(0|[1-9][0-9]*)(\.[0-9]+)?([eE][+-]?[0-9]+)?`: as in CPython's scanner,
a group that fails to match is simply not consumed (so `01` parses as `0`
leaving `1`, and a bare trailing `.` is left for the caller to reject). -/
def parseNumber (cs : List Char) : Except String (ℚ × List Char) :=
  let sgn : Bool × List Char :=
    match cs with
    | '-' :: rest => (true, rest)
    | _ => (false, cs)
  match sgn.2 with
  | [] => Except.error "Expecting value"
  | d :: _ =>
    if d.isDigit then
      let allDigits := sgn.2.takeWhile Char.isDigit
      let intPart := if d = '0' then ['0'] else allDigits
      let rest1 := sgn.2.drop intPart.length
      let frac : List Char × List Char :=
        match rest1 with
        | '.' :: r =>
          let fd := r.takeWhile Char.isDigit
          if fd.isEmpty then ([], rest1) else (fd, r.drop fd.length)
        | _ => ([], rest1)
      let ex := parseExpPart frac.2
      let base : ℚ := (digitsToNat intPart : ℚ) +
        (digitsToNat frac.1 : ℚ) / ((10 : ℚ) ^ frac.1.length)
      let scaled : ℚ :=
        if 0 ≤ ex.1 then base * (10 : ℚ) ^ ex.1.toNat
        else base / ((10 : ℚ) ^ (-ex.1).toNat)
      Except.ok (if sgn.1 then -scaled else scaled, ex.2)
    else Except.error "Expecting value"

/-- The character a single-character JSON string escape denotes, if valid. -/
def escChar : Char → Option Char
  | '"' => some '"'
  | '\\' => some '\\'
  | '/' => some '/'
  | 'b' => some (Char.ofNat 8)
  | 'f' => some (Char.ofNat 12)
  | 'n' => some '\n'
  | 'r' => some (Char.ofNat 13)
  | 't' => some '\t'
  | _ => none

/-- The value of a hexadecimal digit character, if it is one. -/
def parseHexDigit (c : Char) : Option Nat :=
  if c.isDigit then some (digitVal c)
  else if 'a' ≤ c && c ≤ 'f' then some (c.toNat - 87)
  else if 'A' ≤ c && c ≤ 'F' then some (c.toNat - 55)
  else none

/-- Parse the body of a JSON string after the opening quote, returning the
decoded characters and the input following the closing quote.  Unescaped
control characters are rejected (strict mode), escapes are decoded. -/
def parseStringBody : List Char → Except String (List Char × List Char)
  | [] => Except.error "Unterminated string"
  | '"' :: cs => Except.ok ([], cs)
  | '\\' :: cs =>
    match cs with
    | [] => Except.error "Unterminated string"
    | 'u' :: h1 :: h2 :: h3 :: h4 :: rest =>
      match parseHexDigit h1, parseHexDigit h2, parseHexDigit h3, parseHexDigit h4 with
      | some a, some b, some c, some d =>
        (match parseStringBody rest with
         | Except.ok (out, rem) => Except.ok (Char.ofNat (((a * 16 + b) * 16 + c) * 16 + d) :: out, rem)
         | Except.error e => Except.error e)
      | _, _, _, _ => Except.error "Invalid unicode escape"
    | e :: rest =>
      match escChar e with
      | some c =>
        (match parseStringBody rest with
         | Except.ok (out, rem) => Except.ok (c :: out, rem)
         | Except.error e2 => Except.error e2)
      | none => Except.error "Invalid escape"
  | c :: cs =>
    if c.toNat < 32 then Except.error "Invalid control character"
    else
      match parseStringBody cs with
      | Except.ok (out, rem) => Except.ok (c :: out, rem)
      | Except.error e => Except.error e

/-- Parser mode: a top-level value, the items of an array after `[`, or the
members of an object after the opening brace (with the accumulated
prefix). -/
inductive PMode where
  | value
  | arrItems (acc : List JsonValue)
  | objItems (acc : List (String × JsonValue))

/-- The recursive-descent JSON parser, structurally recursive on a fuel
bound on nesting (CPython's recursion limit analogue). -/
def parseJson : Nat → PMode → List Char → Except String (JsonValue × List Char)
  | 0, _, _ => Except.error "Too deeply nested"
  | fuel + 1, PMode.value, cs =>
    match skipWs cs with
    | [] => Except.error "Expecting value"
    | 'n' :: 'u' :: 'l' :: 'l' :: rest => Except.ok (JsonValue.null, rest)
    | 't' :: 'r' :: 'u' :: 'e' :: rest => Except.ok (JsonValue.bool true, rest)
    | 'f' :: 'a' :: 'l' :: 's' :: 'e' :: rest => Except.ok (JsonValue.bool false, rest)
    | '"' :: rest =>
      (match parseStringBody rest with
       | Except.ok (out, rem) => Except.ok (JsonValue.str (String.mk out), rem)
       | Except.error e => Except.error e)
    | '[' :: rest =>
      (match skipWs rest with
       | ']' :: rem => Except.ok (JsonValue.arr [], rem)
       | cs2 => parseJson fuel (PMode.arrItems []) cs2)
    | c :: rest =>
      if c = lbrace then
        match skipWs rest with
        | [] => Except.error "Expecting property name enclosed in double quotes"
        | c2 :: rem =>
          if c2 = rbrace then Except.ok (JsonValue.obj [], rem)
          else parseJson fuel (PMode.objItems []) (c2 :: rem)
      else
        (match parseNumber (c :: rest) with
         | Except.ok (q, rem) => Except.ok (JsonValue.num q, rem)
         | Except.error e => Except.error e)
  | fuel + 1, PMode.arrItems acc, cs =>
    match parseJson fuel PMode.value cs with
    | Except.error e => Except.error e
    | Except.ok (v, rest) =>
      match skipWs rest with
      | ',' :: r2 => parseJson fuel (PMode.arrItems (acc ++ [v])) r2
      | ']' :: r2 => Except.ok (JsonValue.arr (acc ++ [v]), r2)
      | _ => Except.error "Expecting delimiter"
  | fuel + 1, PMode.objItems acc, cs =>
    match skipWs cs with
    | '"' :: rest =>
      (match parseStringBody rest with
       | Except.error e => Except.error e
       | Except.ok (key, r1) =>
         match skipWs r1 with
         | ':' :: r2 =>
           (match parseJson fuel PMode.value r2 with
            | Except.error e => Except.error e
            | Except.ok (v, r3) =>
              match skipWs r3 with
              | ',' :: r4 => parseJson fuel (PMode.objItems (acc ++ [(String.mk key, v)])) r4
              | [] => Except.error "Expecting delimiter"
              | c :: r4 =>
                if c = rbrace then Except.ok (JsonValue.obj (acc ++ [(String.mk key, v)]), r4)
                else Except.error "Expecting delimiter")
         | _ => Except.error "Expecting colon delimiter")
    | _ => Except.error "Expecting property name enclosed in double quotes"

/-- `json.loads`: parse one JSON document, requiring only trailing
whitespace after it. -/
def json_loads (raw : String) : Except String JsonValue :=
  match parseJson (2 * raw.data.length + 4) PMode.value raw.data with
  | Except.error e => Except.error e
  | Except.ok (v, rest) =>
    match skipWs rest with
    | [] => Except.ok v
    | _ => Except.error "Extra data"

/-- Whether a decoded JSON value is an object carrying the given key. -/
def JsonValue.hasKey : JsonValue → String → Bool
  | JsonValue.obj kvs, k => kvs.any (fun kv => kv.1 = k)
  | _, _ => false

/-! ### The completion gateway and `get_proposed_research_json` -/

/-- Token usage reported by the completion provider. -/
structure Usage where
  prompt_tokens : Nat
  completion_tokens : Nat
deriving DecidableEq

/-- The provider's chat-completion response: the message content of
`response.choices[0].message.content` and the reported usage.  The provider
is an external collaborator, so the response is an input to the model. -/
structure ChatResponse where
  content : String
  usage : Usage
deriving DecidableEq

/-- `ResearchAI.create_chat_completion` (researcher.py lines 149-177):
obtains a completion from the provider (here: the supplied response) and
routes its reported usage through `update_cost` before returning it. -/
def ResearchAI.create_chat_completion (t : PriceTable) (s : ResearchAI)
    (resp : ChatResponse) (model : String) :
    Except (PyError × ResearchAI) (ChatResponse × ResearchAI) :=
  match ResearchAI.update_cost t s resp.usage.prompt_tokens resp.usage.completion_tokens model with
  | Except.ok s' => Except.ok (resp, s')
  | Except.error e => Except.error e

/-- `ResearchAI.get_proposed_research_json` (researcher.py lines 126-147):
builds the turn prompt, obtains a completion (billed via `update_cost`),
and runs bare `json.loads` on the message content.  The source performs no
validation of the decoded value (the line-142 TODO acknowledges this);
whatever `json.loads` returns is handed back unchanged. -/
def ResearchAI.get_proposed_research_json (t : PriceTable) (s : ResearchAI)
    (resp : ChatResponse) :
    Except (PyError × ResearchAI) (JsonValue × ResearchAI) :=
  let _content := ResearchAI.generate_first_prompt s
  match ResearchAI.create_chat_completion t s resp s.model with
  | Except.error e => Except.error e
  | Except.ok (r, s1) =>
    match json_loads r.content with
    | Except.ok actions => Except.ok (actions, s1)
    | Except.error msg => Except.error (PyError.JSONDecodeError msg, s1)

/-- Projection extracting the decoded action value of a successful
`get_proposed_research_json` call. -/
def okJson : Except (PyError × ResearchAI) (JsonValue × ResearchAI) → Option JsonValue
  | Except.ok (v, _) => some v
  | Except.error _ => none

/-- The concrete model response `"\x7b\x7d"` (the two-character JSON text of
an empty object) with some reported usage. -/
def emptyObjectResponse : ChatResponse := ⟨"\x7b\x7d", ⟨10, 5⟩⟩

set_option maxRecDepth 100000 in
/-- Counterexample to claim C3 as stated: the raw text consisting of an
empty JSON object decodes successfully and carries NONE of the four
required fields (`sub_questions`, `internet_search`, `internet_query`,
`academic_query`), yet the parse step raises nothing:
`get_proposed_research_json` returns the decoded value unchanged (the
source's line-145 `json.loads` is not followed by any validation). -/
theorem parse_step_accepts_missing_fields :
    json_loads "\x7b\x7d" = Except.ok (JsonValue.obj []) ∧
    JsonValue.hasKey (JsonValue.obj []) "sub_questions" = false ∧
    JsonValue.hasKey (JsonValue.obj []) "internet_search" = false ∧
    JsonValue.hasKey (JsonValue.obj []) "internet_query" = false ∧
    JsonValue.hasKey (JsonValue.obj []) "academic_query" = false ∧
    okJson (ResearchAI.get_proposed_research_json samplePriceTable initialResearchAI
      emptyObjectResponse) = some (JsonValue.obj []) :=
  ⟨rfl, rfl, rfl, rfl, rfl, rfl⟩

/-- The session state after one `update_cost` charge for the given usage at
the given price: the three ledger updates of researcher.py lines 208-213. -/
def chargeFor (s : ResearchAI) (u : Usage) (price : Price) : ResearchAI :=
  { s with
    total_prompt_tokens := s.total_prompt_tokens + u.prompt_tokens
    total_completion_tokens := s.total_completion_tokens + u.completion_tokens
    total_cost := s.total_cost + ((u.prompt_tokens : ℚ) * price.prompt +
      (u.completion_tokens : ℚ) * price.completion) / 1000 }

/-- Claim C3 (corrected): for every raw text, the parse step of
`get_proposed_research_json` fails exactly when JSON decoding fails, and
then with `JSONDecodeError`; when decoding succeeds the decoded value is
returned with no validation of the four required fields; and (model priced)
no error of any other type arises from the call. -/
theorem get_proposed_research_json_parse_behavior (t : PriceTable)
    (s : ResearchAI) (resp : ChatResponse) (price : Price)
    (h : t s.model = some price) :
    (∀ v, json_loads resp.content = Except.ok v →
      ResearchAI.get_proposed_research_json t s resp =
        Except.ok (v, chargeFor s resp.usage price)) ∧
    (∀ msg, json_loads resp.content = Except.error msg →
      ResearchAI.get_proposed_research_json t s resp =
        Except.error (PyError.JSONDecodeError msg, chargeFor s resp.usage price)) ∧
    (∀ e s1, ResearchAI.get_proposed_research_json t s resp = Except.error (e, s1) →
      ∃ msg, e = PyError.JSONDecodeError msg) := by
  have hcc : ResearchAI.create_chat_completion t s resp s.model =
      Except.ok (resp, chargeFor s resp.usage price) := by
    unfold ResearchAI.create_chat_completion chargeFor
    rw [update_cost_of_lookup_some t s resp.usage.prompt_tokens
      resp.usage.completion_tokens s.model price h]
  refine ⟨?_, ?_, ?_⟩
  · intro v hv
    simp only [ResearchAI.get_proposed_research_json, hcc, hv]
  · intro msg hm
    simp only [ResearchAI.get_proposed_research_json, hcc, hm]
  · intro e s1 he
    simp only [ResearchAI.get_proposed_research_json, hcc] at he
    cases hj : json_loads resp.content with
    | ok v =>
      rw [hj] at he
      simp at he
    | error msg =>
      rw [hj] at he
      simp only [Except.error.injEq, Prod.mk.injEq] at he
      exact ⟨msg, he.1.symm⟩

/-- Witness for C3's amended theorem: a priced model with the
empty-object response; decoding succeeds, so the decoded (field-less)
value is returned without error. -/
theorem get_proposed_research_json_parse_behavior_witness :
    samplePriceTable initialResearchAI.model = some samplePrice ∧
    ((∀ v, json_loads emptyObjectResponse.content = Except.ok v →
      ResearchAI.get_proposed_research_json samplePriceTable initialResearchAI emptyObjectResponse =
        Except.ok (v, chargeFor initialResearchAI emptyObjectResponse.usage samplePrice)) ∧
    (∀ msg, json_loads emptyObjectResponse.content = Except.error msg →
      ResearchAI.get_proposed_research_json samplePriceTable initialResearchAI emptyObjectResponse =
        Except.error (PyError.JSONDecodeError msg, chargeFor initialResearchAI emptyObjectResponse.usage samplePrice)) ∧
    (∀ e s1, ResearchAI.get_proposed_research_json samplePriceTable initialResearchAI emptyObjectResponse =
        Except.error (e, s1) → ∃ msg, e = PyError.JSONDecodeError msg)) :=
  ⟨rfl, get_proposed_research_json_parse_behavior samplePriceTable initialResearchAI
    emptyObjectResponse samplePrice rfl⟩

/-! ### The research loop (`main.py` lines 3-21)

`research_loop` constructs a `ResearchAI` and, while
`main_question_answered` is false, calls in order:
`get_proposed_research_json`, `summarize_findings`, `devise_sub_questions`,
`search_google`, `search_papers`, `answer_sub_questions`,
`answer_main_question`; after the loop it calls `summarize_findings` once
more.  Only `get_proposed_research_json` is defined in the repository; the
other five methods are invoked but defined nowhere, so they are modelled
from the spec below.  The environment (LLM responses, search results,
the model's judgements) is supplied per iteration as a `TurnOracle`.
The `ipdb.set_trace()` debugger call on main.py line 6 is a no-op here. -/

/-- The external inputs consumed by one loop iteration: the phase-one LLM
response, the usages and texts of the other billed calls, the retrieval
results, and the model's judgements. -/
structure TurnOracle where
  proposal_response : ChatResponse
  summary_usage : Usage
  summary : String
  devise_usage : Usage
  new_sub_questions : List String
  web_snippets : List String
  paper_snippets : List String
  sub_answered_usage : Usage
  sub_answered : Bool
  main_usage : Usage
  main_answer : Option String

/-- Modelled from the spec: `summarize_findings` (called at main.py lines
11 and 20, defined nowhere in the repository).  Spec section 4.4 step 3:
invoke the completion gateway (a billed call routed through the cost
ledger) to produce a condensed summary of `context`, appended to
`context`; the summary text is returned. -/
def ResearchAI.summarize_findings (t : PriceTable) (s : ResearchAI)
    (usage : Usage) (summary : String) :
    Except (PyError × ResearchAI) (String × ResearchAI) :=
  match ResearchAI.update_cost t s usage.prompt_tokens usage.completion_tokens s.model with
  | Except.error e => Except.error e
  | Except.ok s' =>
    Except.ok (summary, { s' with context := some (s'.context.getD [] ++ [summary]) })

/-- Modelled from the spec: `devise_sub_questions` (called at main.py line
12, defined nowhere in the repository).  Spec section 4.4 step 2 has
sub-questions devised by a billed completion call; the devised list is
stored in `sub_questions`. -/
def ResearchAI.devise_sub_questions (t : PriceTable) (s : ResearchAI)
    (usage : Usage) (sq : List String) :
    Except (PyError × ResearchAI) ResearchAI :=
  match ResearchAI.update_cost t s usage.prompt_tokens usage.completion_tokens s.model with
  | Except.error e => Except.error e
  | Except.ok s' => Except.ok { s' with sub_questions := some sq }

/-- Modelled from the spec: `search_google` (called at main.py line 14,
defined nowhere in the repository).  Spec sections 4.4 step 2 and 6: a
retrieval collaborator returning text snippets that are appended to
`context`; not a billed completion call. -/
def ResearchAI.search_google (s : ResearchAI) (snippets : List String) : ResearchAI :=
  { s with context := some (s.context.getD [] ++ snippets) }

/-- Modelled from the spec: `search_papers` (called at main.py line 15,
defined nowhere in the repository).  Same contract as `search_google`. -/
def ResearchAI.search_papers (s : ResearchAI) (snippets : List String) : ResearchAI :=
  { s with context := some (s.context.getD [] ++ snippets) }

/-- Modelled from the spec: `answer_sub_questions` (called at main.py line
17, defined nowhere in the repository).  Spec section 4.4 step 4: a billed
completion call asking whether enough information exists; sets
`sub_questions_answered` to the model's judgement. -/
def ResearchAI.answer_sub_questions (t : PriceTable) (s : ResearchAI)
    (usage : Usage) (answered : Bool) :
    Except (PyError × ResearchAI) ResearchAI :=
  match ResearchAI.update_cost t s usage.prompt_tokens usage.completion_tokens s.model with
  | Except.error e => Except.error e
  | Except.ok s' => Except.ok { s' with sub_questions_answered := answered }

/-- Modelled from the spec: `answer_main_question` (called at main.py line
18, defined nowhere in the repository).  Spec section 4.4 step 5: only
entered when `sub_questions_answered`; a billed completion call asks
whether the main question is answerable, and on an affirmative answer sets
`main_question_answered` and returns the produced answer text. -/
def ResearchAI.answer_main_question (t : PriceTable) (s : ResearchAI)
    (usage : Usage) (answer : Option String) :
    Except (PyError × ResearchAI) (Option String × ResearchAI) :=
  match s.sub_questions_answered with
  | true =>
    (match ResearchAI.update_cost t s usage.prompt_tokens usage.completion_tokens s.model with
     | Except.error e => Except.error e
     | Except.ok s' =>
       match answer with
       | some a => Except.ok (some a, { s' with main_question_answered := true })
       | none => Except.ok (none, s'))
  | false => Except.ok (none, s)

/-- One iteration of the `while` body of `research_loop` (main.py lines
9-18), in the source's call order.  The parsed proposal is discarded, as in
the source (line 10 ignores the return value). -/
def loop_body (t : PriceTable) (s : ResearchAI) (o : TurnOracle) :
    Except (PyError × ResearchAI) ResearchAI :=
  match ResearchAI.get_proposed_research_json t s o.proposal_response with
  | Except.error e => Except.error e
  | Except.ok (_, s1) =>
    match ResearchAI.summarize_findings t s1 o.summary_usage o.summary with
    | Except.error e => Except.error e
    | Except.ok (_, s2) =>
      match ResearchAI.devise_sub_questions t s2 o.devise_usage o.new_sub_questions with
      | Except.error e => Except.error e
      | Except.ok s3 =>
        let s4 := ResearchAI.search_google s3 o.web_snippets
        let s5 := ResearchAI.search_papers s4 o.paper_snippets
        match ResearchAI.answer_sub_questions t s5 o.sub_answered_usage o.sub_answered with
        | Except.error e => Except.error e
        | Except.ok s6 =>
          match ResearchAI.answer_main_question t s6 o.main_usage o.main_answer with
          | Except.error e => Except.error e
          | Except.ok (_, s7) => Except.ok s7

/-- The `while not rai.main_question_answered` loop of `research_loop`
(main.py lines 9-18), driven by a finite script of per-iteration oracles.
The guard `not rai.main_question_answered` is the source's sole loop
condition; an exhausted script ends the run (the real loop would keep
iterating), and an uncaught exception aborts it. -/
def research_loop (t : PriceTable) : List TurnOracle → ResearchAI →
    Except (PyError × ResearchAI) ResearchAI
  | [], s => Except.ok s
  | o :: rest, s =>
    if s.main_question_answered then Except.ok s
    else
      match loop_body t s o with
      | Except.ok s' => research_loop t rest s'
      | Except.error e => Except.error e

/-- `research_loop` in full (main.py lines 3-21): the loop followed by the
final `summarize_findings` call of line 20, whose result is the printed
answer. -/
def research_loop_run (t : PriceTable) (os : List TurnOracle)
    (final_usage : Usage) (final_summary : String) (s : ResearchAI) :
    Except (PyError × ResearchAI) (String × ResearchAI) :=
  match research_loop t os s with
  | Except.error e => Except.error e
  | Except.ok r => ResearchAI.summarize_findings t r final_usage final_summary

/-! ### Turn-preservation lemmas: no step of the loop touches `turn` -/

/-- `update_cost` never changes `turn`. -/
lemma update_cost_ok_turn (t : PriceTable) (s : ResearchAI) (p c : Nat)
    (m : String) (s' : ResearchAI)
    (h : ResearchAI.update_cost t s p c m = Except.ok s') : s'.turn = s.turn := by
  cases ht : t m with
  | none =>
    rw [update_cost_of_lookup_none t s p c m ht] at h
    exact absurd h (by simp)
  | some price =>
    rw [update_cost_of_lookup_some t s p c m price ht] at h
    cases h
    rfl

/-- `create_chat_completion` never changes `turn`. -/
lemma create_chat_completion_ok_turn (t : PriceTable) (s : ResearchAI)
    (resp : ChatResponse) (m : String) (r : ChatResponse) (s' : ResearchAI)
    (h : ResearchAI.create_chat_completion t s resp m = Except.ok (r, s')) :
    s'.turn = s.turn := by
  simp only [ResearchAI.create_chat_completion] at h
  cases hu : ResearchAI.update_cost t s resp.usage.prompt_tokens resp.usage.completion_tokens m with
  | error e => simp only [hu] at h; exact absurd h (by simp)
  | ok s1 =>
    simp only [hu] at h
    cases h
    exact update_cost_ok_turn t s resp.usage.prompt_tokens resp.usage.completion_tokens m _ hu

/-- `get_proposed_research_json` never changes `turn`. -/
lemma get_proposed_ok_turn (t : PriceTable) (s : ResearchAI)
    (resp : ChatResponse) (v : JsonValue) (s' : ResearchAI)
    (h : ResearchAI.get_proposed_research_json t s resp = Except.ok (v, s')) :
    s'.turn = s.turn := by
  simp only [ResearchAI.get_proposed_research_json] at h
  cases hc : ResearchAI.create_chat_completion t s resp s.model with
  | error e => simp only [hc] at h; exact absurd h (by simp)
  | ok pr =>
    obtain ⟨r, s1⟩ := pr
    simp only [hc] at h
    cases hj : json_loads r.content with
    | ok actions =>
      simp only [hj] at h
      cases h
      exact create_chat_completion_ok_turn t s resp s.model r _ hc
    | error msg => simp only [hj] at h; exact absurd h (by simp)

/-- `summarize_findings` never changes `turn`. -/
lemma summarize_findings_ok_turn (t : PriceTable) (s : ResearchAI)
    (u : Usage) (txt : String) (a : String) (s' : ResearchAI)
    (h : ResearchAI.summarize_findings t s u txt = Except.ok (a, s')) :
    s'.turn = s.turn := by
  simp only [ResearchAI.summarize_findings] at h
  cases hu : ResearchAI.update_cost t s u.prompt_tokens u.completion_tokens s.model with
  | error e => simp only [hu] at h; exact absurd h (by simp)
  | ok s1 =>
    simp only [hu] at h
    cases h
    exact update_cost_ok_turn t s u.prompt_tokens u.completion_tokens s.model s1 hu

/-- `devise_sub_questions` never changes `turn`. -/
lemma devise_sub_questions_ok_turn (t : PriceTable) (s : ResearchAI)
    (u : Usage) (sq : List String) (s' : ResearchAI)
    (h : ResearchAI.devise_sub_questions t s u sq = Except.ok s') :
    s'.turn = s.turn := by
  simp only [ResearchAI.devise_sub_questions] at h
  cases hu : ResearchAI.update_cost t s u.prompt_tokens u.completion_tokens s.model with
  | error e => simp only [hu] at h; exact absurd h (by simp)
  | ok s1 =>
    simp only [hu] at h
    cases h
    exact update_cost_ok_turn t s u.prompt_tokens u.completion_tokens s.model s1 hu

/-- `answer_sub_questions` never changes `turn`. -/
lemma answer_sub_questions_ok_turn (t : PriceTable) (s : ResearchAI)
    (u : Usage) (b : Bool) (s' : ResearchAI)
    (h : ResearchAI.answer_sub_questions t s u b = Except.ok s') :
    s'.turn = s.turn := by
  simp only [ResearchAI.answer_sub_questions] at h
  cases hu : ResearchAI.update_cost t s u.prompt_tokens u.completion_tokens s.model with
  | error e => simp only [hu] at h; exact absurd h (by simp)
  | ok s1 =>
    simp only [hu] at h
    cases h
    exact update_cost_ok_turn t s u.prompt_tokens u.completion_tokens s.model s1 hu

/-- `answer_main_question` never changes `turn`. -/
lemma answer_main_question_ok_turn (t : PriceTable) (s : ResearchAI)
    (u : Usage) (ans : Option String) (a : Option String) (s' : ResearchAI)
    (h : ResearchAI.answer_main_question t s u ans = Except.ok (a, s')) :
    s'.turn = s.turn := by
  simp only [ResearchAI.answer_main_question] at h
  cases hsq : s.sub_questions_answered with
  | false =>
    simp only [hsq] at h
    cases h
    rfl
  | true =>
    simp only [hsq] at h
    cases hu : ResearchAI.update_cost t s u.prompt_tokens u.completion_tokens s.model with
    | error e => simp only [hu] at h; exact absurd h (by simp)
    | ok s1 =>
      simp only [hu] at h
      cases ans with
      | some a2 =>
        simp only at h
        cases h
        exact update_cost_ok_turn t s u.prompt_tokens u.completion_tokens s.model s1 hu
      | none =>
        simp only at h
        cases h
        exact update_cost_ok_turn t s u.prompt_tokens u.completion_tokens s.model _ hu

/-- A completed loop iteration never changes `turn`. -/
lemma loop_body_ok_turn (t : PriceTable) (s : ResearchAI) (o : TurnOracle)
    (s' : ResearchAI) (h : loop_body t s o = Except.ok s') : s'.turn = s.turn := by
  simp only [loop_body] at h
  cases h1 : ResearchAI.get_proposed_research_json t s o.proposal_response with
  | error e => simp only [h1] at h; exact absurd h (by simp)
  | ok pr1 =>
    obtain ⟨v1, s1⟩ := pr1
    simp only [h1] at h
    cases h2 : ResearchAI.summarize_findings t s1 o.summary_usage o.summary with
    | error e => simp only [h2] at h; exact absurd h (by simp)
    | ok pr2 =>
      obtain ⟨a2, s2⟩ := pr2
      simp only [h2] at h
      cases h3 : ResearchAI.devise_sub_questions t s2 o.devise_usage o.new_sub_questions with
      | error e => simp only [h3] at h; exact absurd h (by simp)
      | ok s3 =>
        simp only [h3] at h
        cases h6 : ResearchAI.answer_sub_questions t
            (ResearchAI.search_papers (ResearchAI.search_google s3 o.web_snippets) o.paper_snippets)
            o.sub_answered_usage o.sub_answered with
        | error e => simp only [h6] at h; exact absurd h (by simp)
        | ok s6 =>
          simp only [h6] at h
          cases h7 : ResearchAI.answer_main_question t s6 o.main_usage o.main_answer with
          | error e => simp only [h7] at h; exact absurd h (by simp)
          | ok pr7 =>
            obtain ⟨a7, s7⟩ := pr7
            simp only [h7] at h
            cases h
            have e1 := get_proposed_ok_turn t s o.proposal_response v1 s1 h1
            have e2 := summarize_findings_ok_turn t s1 o.summary_usage o.summary a2 s2 h2
            have e3 := devise_sub_questions_ok_turn t s2 o.devise_usage o.new_sub_questions s3 h3
            have e45 : (ResearchAI.search_papers (ResearchAI.search_google s3 o.web_snippets)
              o.paper_snippets).turn = s3.turn := rfl
            have e6 := answer_sub_questions_ok_turn t
              (ResearchAI.search_papers (ResearchAI.search_google s3 o.web_snippets) o.paper_snippets)
              o.sub_answered_usage o.sub_answered s6 h6
            have e7 := answer_main_question_ok_turn t s6 o.main_usage o.main_answer a7 _ h7
            rw [e7, e6, e45, e3, e2, e1]

/-- An oracle for one concrete loop iteration: the model returns the
empty-object JSON proposal, searches return nothing, and the model judges
neither the sub-questions nor the main question answered. -/
def sampleOracle : TurnOracle where
  proposal_response := emptyObjectResponse
  summary_usage := ⟨7, 3⟩
  summary := "partial summary"
  devise_usage := ⟨1, 1⟩
  new_sub_questions := []
  web_snippets := []
  paper_snippets := []
  sub_answered_usage := ⟨1, 1⟩
  sub_answered := false
  main_usage := ⟨1, 1⟩
  main_answer := none

set_option maxRecDepth 100000 in
/-- Counterexample to claim C4 as stated: one completed loop iteration
(from the fresh state, via `loop_body`) returns normally with `turn` still
0, not incremented to 1: no statement in the source ever increments
`turn` (it is only initialised to 0 at researcher.py line 48). -/
theorem completed_iteration_leaves_turn_zero :
    initialResearchAI.turn = 0 ∧
    (okState (loop_body samplePriceTable initialResearchAI sampleOracle)).map
      (fun s => s.turn) = some 0 :=
  ⟨rfl, by decide⟩

/-- Claim C4 (corrected): across every execution of the loop, `turn` is
monotonically non-decreasing only trivially — every run of the loop that
returns normally leaves `turn` exactly equal to its initial value (0 in
any real run); no loop iteration increments or otherwise modifies it. -/
theorem research_loop_turn_constant (t : PriceTable) (os : List TurnOracle)
    (s r : ResearchAI) (h : research_loop t os s = Except.ok r) :
    r.turn = s.turn := by
  induction os generalizing s with
  | nil =>
    unfold research_loop at h
    cases h
    rfl
  | cons o rest ih =>
    unfold research_loop at h
    split at h
    · cases h; rfl
    · cases hb : loop_body t s o with
      | error e => rw [hb] at h; exact absurd h (by simp)
      | ok s' =>
        rw [hb] at h
        rw [ih s' h]
        exact loop_body_ok_turn t s o s' hb

set_option maxRecDepth 100000 in
/-- Witness for C4's amended theorem: the concrete one-iteration run
returns normally and the claim theorem yields that its final `turn`
equals the initial one. -/
theorem research_loop_turn_constant_witness :
    ∃ r, research_loop samplePriceTable [sampleOracle] initialResearchAI =
      Except.ok r ∧ r.turn = initialResearchAI.turn := by
  have hok : (research_loop samplePriceTable [sampleOracle]
      initialResearchAI).isOk = true := by decide
  cases hr : research_loop samplePriceTable [sampleOracle] initialResearchAI with
  | error e => rw [hr] at hok; simp [Except.isOk, Except.toBool] at hok
  | ok r =>
    exact ⟨r, rfl, research_loop_turn_constant samplePriceTable [sampleOracle]
      initialResearchAI r hr⟩

/-- A session state whose cost already exceeds its positive budget
(budget 1, cost 2) with the main question not yet answered. -/
def overBudgetState : ResearchAI :=
  { initialResearchAI with total_budget := 1, total_cost := 2 }

set_option maxRecDepth 100000 in
/-- Claim C2 evaluated at the failing input: from a state whose cost (2)
already exceeds its positive budget (1) — `budget_exceeded` in the spec's
sense — and with the main question unanswered, the loop does NOT
terminate: it runs another full iteration and issues further billed
completion calls (the prompt-token total grows from 0 to 19 = 10+7+1+1
across the iteration's billed calls), ending with the main question still
unanswered.  The source loop's only condition (main.py line 9) is
`not rai.main_question_answered`; no budget check and no turn limit exist
anywhere in the source, although the class docstring (researcher.py line
38) promises to stop when the budget is exceeded. -/
theorem research_loop_bills_after_budget_exceeded :
    ResearchAI.budget_exceeded overBudgetState = true ∧
    overBudgetState.main_question_answered = false ∧
    overBudgetState.total_prompt_tokens = 0 ∧
    (okState (research_loop samplePriceTable [sampleOracle] overBudgetState)).map
      (fun s => s.total_prompt_tokens) = some 19 ∧
    (okState (research_loop samplePriceTable [sampleOracle] overBudgetState)).map
      (fun s => s.main_question_answered) = some false := by
  refine ⟨by decide, rfl, rfl, by decide, by decide⟩
